import Mathlib

/-!
# Verification of the DrishtiApp risk-governance core

Shallow embedding of the risk-fusion and governance pipeline of the
DrishtiApp repository: `intelligence/governance.py` (SafetyGovernance,
DecisionEngine), `intelligence/iot_network.py` (IoTManager),
`intelligence/risk_model.py` (LandslidePredictor),
`intelligence/simulation.py` (SimulationManager), the `/analyze`,
`/admin/simulate/start` and `/admin/simulate/stop` endpoints of `main.py`,
and `record_authority_decision` of `core/routing.py`.

Numeric values (Python ints and floats) are embedded as rationals; the
pipeline only compares, scales and truncates them, so the embedding is
exact.  Python dictionaries whose keys may be absent are embedded as
structures of `Option` fields covering exactly the keys the code reads;
a subscript access on an absent key is a `KeyError`, embedded as an
`Except.error`.
-/

namespace Drishti

/-- Python `int(x)` truncation toward zero of a rational. -/
def pyTrunc (q : ℚ) : ℤ :=
  if 0 ≤ q then ⌊q⌋ else -⌊-q⌋

/-- Python `str(x)` rendering of an optional string; `str(None) = "None"`. -/
def pyShowOptStr : Option String → String
  | none => "None"
  | some s => s

/-- The risk dictionary produced by `SafetyGovernance.validate_risk` and
consumed by `DecisionEngine.create_proposal`.  The fields are the exact
dictionary keys the consumers read (`risk`, `score`, `reason`, `source`);
each is an `Option` because Python dictionaries passed here may lack keys
(as `SimulationManager.start_scenario`'s return value does). -/
structure RiskData where
  risk : Option String
  score : Option ℚ
  reason : Option String
  source : Option String
deriving Repr, DecidableEq

/-- `SafetyGovernance.validate_risk` (intelligence/governance.py, lines 10-49).
Rule 1: cloudburst (`rain_mm > 100`); Rule 2: critical slope
(`slope_angle > 45 and rain_mm > 40`); Rule 3: AI-score bands. -/
def validate_risk (rain_mm : ℚ) (slope_angle : ℚ) (ai_prediction_score : ℚ) : RiskData :=
  if rain_mm > 100 then
    { risk := some "CRITICAL", score := some 10,
      reason := some "EXTREME RAINFALL (Protocol 101)",
      source := some "IMD Realtime" }
  else if slope_angle > 45 ∧ rain_mm > 40 then
    { risk := some "HIGH", score := some 30,
      reason := some "UNSTABLE SLOPE + RAIN (ISRO Threshold)",
      source := some "ISRO Cartosat DEM" }
  else if ai_prediction_score < 40 then
    { risk := some "CRITICAL", score := some ai_prediction_score,
      reason := some "AI Model Alert (Landslide Probability > 80%)",
      source := some "RouteAI Fusion Engine" }
  else if ai_prediction_score < 70 then
    { risk := some "MODERATE", score := some ai_prediction_score,
      reason := some "AI Model Caution",
      source := some "RouteAI Fusion Engine" }
  else
    { risk := some "SAFE", score := some ai_prediction_score,
      reason := some "Normal Conditions",
      source := some "RouteAI Fusion Engine" }

/-- The target zone of a proposal (`target_zone` in
`DecisionEngine.create_proposal`). -/
structure TargetZone where
  lat : ℚ
  lng : ℚ
  radius : String
deriving Repr, DecidableEq

/-- A decision proposal as built by `DecisionEngine.create_proposal`
(intelligence/governance.py, lines 58-95).  Field names follow the
dictionary keys of the source (`type` is the recommended action). -/
structure Proposal where
  id : String
  timestamp : ℚ
  type : String
  target_zone : TargetZone
  reason : String
  ai_confidence : ℚ
  source_intel : String
  status : String
  urgency : String
deriving Repr, DecidableEq

/-- `DecisionEngine.create_proposal` (intelligence/governance.py, lines 58-95).
The opaque uuid-derived id and the `time.time()` stamp are taken as the
parameters `pid` and `ts`.  Subscript reads of the `risk` and `reason` keys
raise `KeyError` when absent; `score` and `source` are read with `.get` and
default to `0` and `"Unknown"`. -/
def create_proposal (risk_data : RiskData) (lat lng : ℚ) (pid : String) (ts : ℚ) :
    Except String Proposal :=
  match risk_data.risk with
  | none => .error "KeyError: risk"
  | some r =>
    let recommended_action :=
      if r = "CRITICAL" then "MASS_EVACUATION_ALERT"
      else if r = "HIGH" then "DEPLOY_NDRF_SCOUT"
      else if r = "MODERATE" then "ISSUE_CITIZEN_ADVISORY"
      else "MONITOR_ONLY"
    let urgency :=
      if r = "CRITICAL" then "IMMEDIATE"
      else if r = "HIGH" then "HIGH"
      else if r = "MODERATE" then "MEDIUM"
      else "LOW"
    match risk_data.reason with
    | none => .error "KeyError: reason"
    | some reason =>
      .ok { id := pid, timestamp := ts, type := recommended_action,
            target_zone := { lat := lat, lng := lng, radius := "5km" },
            reason := reason,
            ai_confidence := risk_data.score.getD 0,
            source_intel := risk_data.source.getD "Unknown",
            status := "PENDING_APPROVAL",
            urgency := urgency }

/-- One IoT sensor reading as emitted by `IoTManager.get_live_readings`
(intelligence/iot_network.py).  `value_repr` is the decimal text of `value`
as the telemetry layer prints it; the core never parses it back, so the
float-to-text rendering stays abstract. -/
structure Reading where
  sensor_type : String
  location : String
  value : ℚ
  value_repr : String
  unit : String
  status : String
  lat : ℚ
  lng : ℚ
deriving Repr, DecidableEq

/-- The breach alert returned by `IoTManager.check_critical_breach`. -/
structure Breach where
  message : String
  zone_lat : ℚ
  zone_lng : ℚ
deriving Repr, DecidableEq

/-- `IoTManager.check_critical_breach` (intelligence/iot_network.py,
lines 69-79): returns an alert for the first reading with CRITICAL status,
`none` otherwise. -/
def check_critical_breach : List Reading → Option Breach
  | [] => none
  | reading :: rest =>
    if reading.status = "CRITICAL" then
      some { message := "🚨 CRITICAL ALERT: " ++ reading.sensor_type ++ " breach at "
                  ++ reading.location ++ ". WATER LEVEL: " ++ reading.value_repr
                  ++ reading.unit ++ ". EVACUATE.",
             zone_lat := reading.lat, zone_lng := reading.lng }
    else check_critical_breach rest

/-- The drill/simulation state held by `SimulationManager.state`
(intelligence/simulation.py). -/
structure SimState where
  active : Bool
  scenario : Option String
  target_lat : ℚ
  target_lng : ℚ
deriving Repr, DecidableEq

/-- The crowd-intel dictionary returned by `CrowdManager.evaluate_zone`.
The fusion code in `main.py` reads only its `risk` and `source` keys; the
module itself (intelligence/crowdsource.py) is an external collaborator of
the fusion engine, so its output is an input here. -/
structure CrowdIntel where
  risk : String
  source : String
deriving Repr, DecidableEq

/-- `LandslidePredictor.get_isro_static_data` (intelligence/risk_model.py,
lines 27-35): slope is drawn by `random.randint(30, 60)` for `lat > 26.0`
and `random.randint(5, 20)` otherwise.  The random draw is embedded as the
consumed generator value `draw`: `randint a b` yields `a + draw % (b-a+1)`,
covering exactly the range of the source. -/
def get_isro_static_data (lat : ℚ) (draw : ℕ) : ℚ × String :=
  if lat > 26 then ((30 + draw % 31 : ℕ), "Loamy-Unstable")
  else ((5 + draw % 16 : ℕ), "Alluvial-Stable")

/-- The result dictionary of `LandslidePredictor.predict`. -/
structure PredictOut where
  ai_score : ℚ
  slope_angle : ℚ
  soil_type : String
deriving Repr, DecidableEq

/-- `LandslidePredictor.predict` (intelligence/risk_model.py, lines 37-63).
`has_model` selects between the loaded-model branch (whose body also falls
back to the arithmetic formula) and the simulation branch. -/
def predict (has_model : Bool) (rain_input : ℚ) (lat : ℚ) (draw : ℕ) : PredictOut :=
  let static := get_isro_static_data lat draw
  let slope := static.1
  let ai_score : ℚ :=
    if has_model then max 0 (100 - rain_input * (1/2) - slope * (4/5))
    else
      max 0 ((pyTrunc (100 - (rain_input * (1/2)
        + (if slope > 30 then slope * (1/2) else 0))) : ℤ) : ℚ)
  { ai_score := ai_score, slope_angle := slope, soil_type := static.2 }

/-- The crowd risk level retained by `analyze_route` (main.py, lines 843-849):
the reported level when the intel is CRITICAL or HIGH, otherwise "SAFE". -/
def crowdRiskOf : Option CrowdIntel → String
  | none => "SAFE"
  | some ci => if ci.risk = "CRITICAL" ∨ ci.risk = "HIGH" then ci.risk else "SAFE"

/-- The crowd alert list built by `analyze_route` (main.py, lines 845-849). -/
def crowdAlertsOf : Option CrowdIntel → List String
  | none => []
  | some ci =>
    if ci.risk = "CRITICAL" ∨ ci.risk = "HIGH" then
      ["⚠️ LIVE HAZARD: " ++ ci.source]
    else []

/-- The terrain risk scoring of `analyze_route` (main.py, lines 826-834). -/
def terrain_score_of (slope_angle : ℚ) : ℚ :=
  if slope_angle > 35 then 90
  else if slope_angle > 25 then 70
  else if slope_angle > 15 then 50
  else 20

/-- The weather sub-score of `analyze_route` (main.py, line 872):
`min(rain_input * 2, 100)`. -/
def weather_score_of (rain_input : ℚ) : ℚ := min (rain_input * 2) 100

/-- The crowd sub-score of `analyze_route` (main.py, line 873). -/
def crowd_score_of (crowd_risk : String) : ℚ :=
  if crowd_risk = "CRITICAL" then 100 else if crowd_risk = "HIGH" then 70 else 30

/-- The IoT sub-score of `analyze_route` (main.py, line 874). -/
def iot_score_of (iot_risk : String) : ℚ :=
  if iot_risk = "CRITICAL" then 100 else 30

/-- The IoT risk level of `analyze_route` (main.py, lines 852-859). -/
def iot_risk_of (readings : List Reading) : String :=
  if (check_critical_breach readings).isSome then "CRITICAL" else "SAFE"

/-- The weighted composite of the five sub-scores (main.py, lines 878-884).
Weights: landslide 0.35, terrain 0.25, weather 0.20, crowd 0.15, IoT 0.05. -/
def composite_score (landslide terrain weather crowd iot : ℚ) : ℚ :=
  landslide * (35/100) + terrain * (25/100) + weather * (20/100)
    + crowd * (15/100) + iot * (5/100)

/-- The composite banding stated by the spec (section 4.3, rule 4):
`>= 75` CRITICAL, `>= 60` HIGH, `>= 40` MODERATE, else SAFE.  This is the
spec-side table, to be compared against the `elif` chain of `analyze_route`. -/
def specBand (c : ℚ) : String :=
  if c ≥ 75 then "CRITICAL"
  else if c ≥ 60 then "HIGH"
  else if c ≥ 40 then "MODERATE"
  else "SAFE"

/-- The fields of the `/analyze` response that the fusion logic computes
(main.py, lines 954-980).  The haversine `distance` field is geometric
presentation and plays no part in the verdict, so it is not embedded. -/
structure AnalyzeResult where
  route_risk : String
  confidence_score : ℤ
  reason : String
  source : String
  recommendations : List String
  landslide_risk : ℚ
  terrain_risk : ℚ
  weather_risk : ℚ
  crowd_intel : ℚ
  iot_sensors : ℚ
deriving Repr, DecidableEq

/-- A rendering of a rational as text, standing in for the Python string
interpolation of numbers inside reason strings.  No claim depends on the
digits produced. -/
def ratStr (q : ℚ) : String := toString q

/-- `analyze_route` (main.py, lines 797-980), from the point where the
rainfall input has been resolved.  External signal state enters as
parameters: `readings` (the IoT feed), `crowd_intel` (the crowd collaborator
output), `sim_state` (the drill flag), `has_model` (the predictor model
state), and `draw` (the random generator value the predictor consumes). -/
def analyze_route (has_model : Bool) (rain_input : ℚ) (start_lat : ℚ) (draw : ℕ)
    (readings : List Reading) (crowd_intel : Option CrowdIntel)
    (sim_state : SimState) : AnalyzeResult :=
  -- === 2-3. AI landslide prediction and terrain analysis ===
  let ai_result := predict has_model rain_input start_lat draw
  let landslide_score := ai_result.ai_score
  let slope_angle := ai_result.slope_angle
  let terrain_type := if start_lat > 26 then "Hilly" else "Plain"
  let terrain_risk_score := terrain_score_of slope_angle
  -- === 4. Governance layer ===  (its reason/source initialize the final
  -- values, but every branch of the determination chain overwrites them)
  let governance_result := validate_risk rain_input slope_angle landslide_score
  -- === 5-7. Crowd intel, IoT breach, drill flag ===
  let crowd_risk := crowdRiskOf crowd_intel
  let crowd_alerts := crowdAlertsOf crowd_intel
  let breach := check_critical_breach readings
  let iot_risk := iot_risk_of readings
  let iot_alerts := match breach with
    | some b => ["🔴 " ++ b.message]
    | none => []
  let drill_active := sim_state.active
  -- === 8. Multi-factor aggregation ===
  let landslide_risk_level :=
    if landslide_score > 70 then "HIGH"
    else if landslide_score > 40 then "MODERATE" else "LOW"
  let weather_score := weather_score_of rain_input
  let crowd_score := crowd_score_of crowd_risk
  let iot_score := iot_score_of iot_risk
  let composite := composite_score landslide_score terrain_risk_score
    weather_score crowd_score iot_score
  -- === 9. Final risk determination (priority: drill > IoT > crowd > AI) ===
  let verdict :
      String × String × String × List String :=
    if drill_active then
      ("CRITICAL",
       "🚨 DRILL ACTIVE: " ++ pyShowOptStr sim_state.scenario ++ " SCENARIO",
       "National Command Authority (DRILL)",
       ["⚠️ Emergency drill in progress - Follow evacuation protocols"])
    else if iot_risk = "CRITICAL" then
      ("CRITICAL", String.intercalate " | " iot_alerts, "IoT Sensor Grid",
       ["🔴 Real-time sensor breach detected", "📍 Reroute immediately to alternate path"])
    else if crowd_risk = "CRITICAL" ∨ crowd_risk = "HIGH" then
      (crowd_risk, String.intercalate " | " crowd_alerts, "Citizen Sentinel Network",
       ["👥 Recent civilian hazard reports detected", "🛡️ Exercise extreme caution"])
    else if composite ≥ 75 then
      ("CRITICAL",
       "Multi-factor high-risk assessment: Landslide probability "
         ++ ratStr landslide_score ++ "%, Slope " ++ ratStr slope_angle
         ++ "°, Heavy rainfall " ++ ratStr rain_input ++ "mm",
       "AI Risk Engine + Satellite Data",
       ["🚫 Route NOT recommended", "📞 Contact local authorities"])
    else if composite ≥ 60 then
      ("HIGH",
       "Elevated risk factors: " ++ landslide_risk_level
         ++ " landslide risk, challenging terrain",
       "Integrated Risk Assessment",
       ["⚠️ Proceed with extreme caution", "🧭 Monitor weather updates"])
    else if composite ≥ 40 then
      ("MODERATE",
       "Moderate risk conditions detected: " ++ terrain_type ++ " terrain, "
         ++ ratStr rain_input ++ "mm rainfall",
       "Terrain & Weather Analysis",
       ["ℹ️ Stay alert and informed", "📱 Keep emergency contacts ready"])
    else
      ("SAFE", "Route cleared: Low risk assessment across all factors",
       "Comprehensive Safety Validation",
       ["✅ Route approved for travel", "🗺️ Maintain situational awareness"])
  -- the governance fields are shadowed by the chain above in every case
  let _base := (governance_result.reason, governance_result.source)
  { route_risk := verdict.1,
    confidence_score := pyTrunc composite,
    reason := verdict.2.1,
    source := verdict.2.2.1,
    recommendations := verdict.2.2.2,
    landslide_risk := landslide_score,
    terrain_risk := terrain_risk_score,
    weather_risk := weather_score,
    crowd_intel := crowd_score,
    iot_sensors := iot_score }

/-- Two consecutive `/analyze` calls with identical inputs and identical
external signal state.  The random generator is the stream `s`; the first
call consumes `s 0`, the second the next value `s 1`. -/
def analyze_route_twice (has_model : Bool) (rain_input : ℚ) (start_lat : ℚ)
    (s : ℕ → ℕ) (readings : List Reading) (crowd_intel : Option CrowdIntel)
    (sim_state : SimState) : AnalyzeResult × AnalyzeResult :=
  (analyze_route has_model rain_input start_lat (s 0) readings crowd_intel sim_state,
   analyze_route has_model rain_input start_lat (s 1) readings crowd_intel sim_state)

/-- Modelled from the spec: one entry of the `AuditLogger` append-only log.
`intelligence/audit.py` is absent from src/ (only its callers are); spec
section 4.6 gives `log(actor, action, details, severity)` appending one
immutable entry. -/
structure AuditEntry where
  actor : String
  action : String
  details : String
  severity : String
deriving Repr, DecidableEq

/-- The process state touched by the simulate start/stop endpoints of
`main.py`: the drill state of `SimulationManager`, the module-level
`PENDING_DECISIONS` queue, and the audit log. -/
structure SystemState where
  sim : SimState
  pending : List Proposal
  audit : List AuditEntry
deriving Repr, DecidableEq

/-- `SimulationManager.start_scenario` (intelligence/simulation.py,
lines 17-25): the new global state. -/
def start_scenario_state (scenario_type : String) (lat lng : ℚ) : SimState :=
  { active := true, scenario := some scenario_type, target_lat := lat, target_lng := lng }

/-- The return value of `SimulationManager.start_scenario`, projected onto
the risk-dictionary keys its consumer reads.  The source returns
`{"status": "ACTIVE", "mode": scenario_type}`, which carries none of the
`risk`/`score`/`reason`/`source` keys. -/
def start_scenario_data (_scenario_type : String) : RiskData :=
  { risk := none, score := none, reason := none, source := none }

/-- The lazy duplicate scan of `start_simulation` (main.py, line 307):
`next((p for p in PENDING_DECISIONS if p["reason"] == scenario_data["reason"]), None)`.
The generator only evaluates its predicate on actual elements, so the
subscript on the scenario dictionary raises `KeyError` only when the queue
is nonempty. -/
def pending_reason_hit : List Proposal → Option String → Except String Bool
  | [], _ => .ok false
  | _ :: _, none => .error "KeyError: reason"
  | p :: ps, some r => if p.reason = r then .ok true else pending_reason_hit ps (some r)

/-- `start_simulation` — the `/admin/simulate/start` endpoint (main.py,
lines 289-311).  `pid` and `ts` stand for the uuid and clock values consumed
by `create_proposal`.  The endpoint mutates the simulation state and logs the
drill before building the proposal, so those effects survive even when a
later step raises; the result pairs the final state with either the injected
proposal id or the raised error. -/
def start_simulation (scenario : String) (pid : String) (ts : ℚ)
    (st : SystemState) : SystemState × Except String String :=
  let st1 := { st with sim := start_scenario_state scenario (2614/100) (9173/100) }
  let st2 := { st1 with
    audit := st1.audit ++
      [({ actor := "ADMIN", action := "DRILL_INITIATED",
          details := "Scenario: " ++ scenario, severity := "WARN" } : AuditEntry)] }
  match create_proposal (start_scenario_data scenario) (2614/100) (9173/100) pid ts with
  | .error e => (st2, .error e)
  | .ok proposal =>
    match pending_reason_hit st2.pending (start_scenario_data scenario).reason with
    | .error e => (st2, .error e)
    | .ok hit =>
      if hit then (st2, .ok proposal.id)
      else ({ st2 with pending := proposal :: st2.pending }, .ok proposal.id)

/-- `stop_simulation` — the `/admin/simulate/stop` endpoint (main.py,
lines 313-325) composed with `SimulationManager.stop_simulation`
(intelligence/simulation.py, lines 27-31): log one DRILL_STOPPED entry,
clear the pending queue, deactivate the drill.  The audit append is
modelled from the spec (section 4.6), `intelligence/audit.py` being absent
from src/. -/
def stop_simulation (st : SystemState) : SystemState × String :=
  let st1 := { st with
    audit := st.audit ++
      [({ actor := "ADMIN", action := "DRILL_STOPPED",
          details := "System Reset to Normal", severity := "INFO" } : AuditEntry)] }
  let st2 := { st1 with pending := [] }
  let st3 := { st2 with sim := { st2.sim with active := false, scenario := none } }
  (st3, "STOPPED")

/-- One row of the `authority_decisions` table written by
`record_authority_decision` (core/routing.py). -/
structure DecisionRow where
  route_id : String
  actor_role : String
  decision : String
deriving Repr, DecidableEq

/-- One row of the `audit_logs` table written by
`record_authority_decision`; the fields are the `payload` entries of the
source. -/
structure AuditRow where
  actor : String
  action : String
  route_id : String
  actor_role : String
  decision : String
  context : String
deriving Repr, DecidableEq

/-- The database state visible to `record_authority_decision`.  `routes`
holds the ids of existing `Route` rows; `db/models.py` is absent from src/,
and its foreign-key constraint is modelled from the handler in
core/routing.py that maps `IntegrityError` to 404 "Route not found":
inserting a decision fails exactly when the route id is absent. -/
structure DbState where
  routes : List String
  decisions : List DecisionRow
  audit : List AuditRow
deriving Repr, DecidableEq

/-- The request body of the decision endpoint (core/routing.py,
lines 110-115).  `context` is carried as its opaque rendering. -/
structure DecisionRequest where
  route_id : String
  actor_role : String
  decision : String
  actor : String
  context : String
deriving Repr, DecidableEq

/-- `record_authority_decision` — `POST /routes/(route_id)/decision`
(core/routing.py, lines 209-242).  On a payload/path mismatch: HTTP 400.
On an unknown route id the transaction rolls back, leaving the state
unchanged, and the endpoint raises HTTP 404 "Route not found".  Otherwise
one decision row and one audit row are appended and the call reports
RECORDED. -/
def record_authority_decision (route_id : String) (payload : DecisionRequest)
    (db : DbState) : DbState × Except (ℕ × String) String :=
  if payload.route_id ≠ route_id then
    (db, .error (400, "route_id mismatch"))
  else if route_id ∈ db.routes then
    let decision : DecisionRow :=
      { route_id := route_id, actor_role := payload.actor_role,
        decision := payload.decision }
    let audit_entry : AuditRow :=
      { actor := payload.actor, action := "AUTHORITY_DECISION",
        route_id := route_id, actor_role := payload.actor_role,
        decision := payload.decision, context := payload.context }
    ({ db with decisions := db.decisions ++ [decision],
               audit := db.audit ++ [audit_entry] },
     .ok "RECORDED")
  else
    (db, .error (404, "Route not found"))

/-- The composite-fallback contract stated by the spec (section 4.3, rule 4)
over a fusion result: the verdict is the band of the weighted composite of
the five reported sub-scores, and each sub-score lies in [0, 100]. -/
def compositeFallbackSpec (res : AnalyzeResult) : Prop :=
  res.route_risk = specBand (composite_score res.landslide_risk res.terrain_risk
      res.weather_risk res.crowd_intel res.iot_sensors) ∧
  (0 ≤ res.landslide_risk ∧ res.landslide_risk ≤ 100) ∧
  (0 ≤ res.terrain_risk ∧ res.terrain_risk ≤ 100) ∧
  (0 ≤ res.weather_risk ∧ res.weather_risk ≤ 100) ∧
  (0 ≤ res.crowd_intel ∧ res.crowd_intel ≤ 100) ∧
  (0 ≤ res.iot_sensors ∧ res.iot_sensors ≤ 100)

end Drishti

namespace Drishti

/-- C2: for every `rain_mm > 100`, `validate_risk` returns risk CRITICAL with
score fixed at 10, regardless of slope and AI score. -/
theorem cloudburst_protocol (rain_mm slope_angle ai : ℚ) (h : rain_mm > 100) :
    validate_risk rain_mm slope_angle ai =
      { risk := some "CRITICAL", score := some 10,
        reason := some "EXTREME RAINFALL (Protocol 101)",
        source := some "IMD Realtime" } := by
  simp [validate_risk, h]

/-- Witness for C2: `validate_risk 150 0 90` hits the cloudburst protocol. -/
theorem cloudburst_protocol_witness :
    validate_risk 150 0 90 =
      { risk := some "CRITICAL", score := some 10,
        reason := some "EXTREME RAINFALL (Protocol 101)",
        source := some "IMD Realtime" } :=
  cloudburst_protocol 150 0 90 (by norm_num)

/-- C3: for every input with `rain_mm ≤ 100`, `slope_angle > 45` and
`rain_mm > 40`, `validate_risk` returns risk HIGH with score fixed at 30,
regardless of the AI score. -/
theorem critical_slope_protocol (rain_mm slope_angle ai : ℚ)
    (h1 : rain_mm ≤ 100) (h2 : slope_angle > 45) (h3 : rain_mm > 40) :
    validate_risk rain_mm slope_angle ai =
      { risk := some "HIGH", score := some 30,
        reason := some "UNSTABLE SLOPE + RAIN (ISRO Threshold)",
        source := some "ISRO Cartosat DEM" } := by
  have hr : ¬ rain_mm > 100 := not_lt.mpr h1
  simp [validate_risk, hr, h2, h3]

/-- Witness for C3: `validate_risk 50 50 90` yields HIGH with score 30 even
though the AI band alone would have yielded SAFE. -/
theorem critical_slope_protocol_witness :
    validate_risk 50 50 90 =
      { risk := some "HIGH", score := some 30,
        reason := some "UNSTABLE SLOPE + RAIN (ISRO Threshold)",
        source := some "ISRO Cartosat DEM" } :=
  critical_slope_protocol 50 50 90 (by norm_num) (by norm_num) (by norm_num)

/-- C4: when neither override fires, `validate_risk` bands the AI score:
CRITICAL below 40, MODERATE in [40, 70), SAFE at 70 and above, and in every
case the returned score is the AI score unchanged. -/
theorem ai_score_bands (rain_mm slope_angle ai : ℚ)
    (h1 : rain_mm ≤ 100) (h2 : ¬ (slope_angle > 45 ∧ rain_mm > 40)) :
    ((validate_risk rain_mm slope_angle ai).score = some ai) ∧
    (ai < 40 → (validate_risk rain_mm slope_angle ai).risk = some "CRITICAL") ∧
    (40 ≤ ai → ai < 70 → (validate_risk rain_mm slope_angle ai).risk = some "MODERATE") ∧
    (70 ≤ ai → (validate_risk rain_mm slope_angle ai).risk = some "SAFE") := by
  have hr : ¬ rain_mm > 100 := not_lt.mpr h1
  refine ⟨?_, ?_, ?_, ?_⟩
  · by_cases hlo : ai < 40
    · simp [validate_risk, hr, h2, hlo]
    · by_cases hmid : ai < 70
      · simp [validate_risk, hr, h2, hlo, hmid]
      · simp [validate_risk, hr, h2, hlo, hmid]
  · intro hlo; simp [validate_risk, hr, h2, hlo]
  · intro hge hmid
    have hlo : ¬ ai < 40 := not_lt.mpr hge
    simp [validate_risk, hr, h2, hlo, hmid]
  · intro hge
    have hlo : ¬ ai < 40 := not_lt.mpr (by linarith)
    have hmid : ¬ ai < 70 := not_lt.mpr hge
    simp [validate_risk, hr, h2, hlo, hmid]

/-- Witness for C4: at `rain = 10, slope = 20, ai = 35` neither override fires
and the result is CRITICAL with the AI score passed through. -/
theorem ai_score_bands_witness :
    ((validate_risk 10 20 35).score = some 35) ∧
    (validate_risk 10 20 35).risk = some "CRITICAL" := by
  obtain ⟨hs, hc, _, _⟩ :=
    ai_score_bands 10 20 35 (by norm_num) (by norm_num)
  exact ⟨hs, hc (by norm_num)⟩

/-- A breach is reported whenever some reading has CRITICAL status. -/
theorem breach_isSome_of_mem (readings : List Reading)
    (h : ∃ r ∈ readings, r.status = "CRITICAL") :
    (check_critical_breach readings).isSome := by
  induction readings with
  | nil => rcases h with ⟨r, hr, _⟩; cases hr
  | cons a as ih =>
    rcases h with ⟨r, hr, hs⟩
    by_cases ha : a.status = "CRITICAL"
    · simp [check_critical_breach, ha]
    · have hmem : r ∈ as := by
        rcases List.mem_cons.mp hr with h1 | h1
        · exact absurd (h1 ▸ hs) ha
        · exact h1
      simpa [check_critical_breach, ha] using ih ⟨r, hmem, hs⟩

/-- Truncation toward zero never exceeds a nonnegative upper bound of its
argument. -/
theorem pyTrunc_le_of_le (q c : ℚ) (hq : q ≤ c) (hc : 0 ≤ c) :
    (pyTrunc q : ℚ) ≤ c := by
  unfold pyTrunc
  split_ifs with h
  · exact le_trans (Int.floor_le q) hq
  · push_neg at h
    have h1 : (0 : ℤ) ≤ ⌊-q⌋ := Int.floor_nonneg.mpr (by linarith)
    have h2 : ((-⌊-q⌋ : ℤ) : ℚ) ≤ 0 := by
      push_cast
      simpa using (Int.cast_nonneg.mpr h1 : (0 : ℚ) ≤ (⌊-q⌋ : ℚ))
    exact le_trans h2 hc

/-- The slope produced by the static-terrain draw is nonnegative. -/
theorem isro_slope_nonneg (lat : ℚ) (draw : ℕ) :
    0 ≤ (get_isro_static_data lat draw).1 := by
  unfold get_isro_static_data
  split_ifs <;> positivity

/-- The predictor's AI score lies in [0, 100] for nonnegative rainfall. -/
theorem predict_ai_score_mem (has_model : Bool) (rain lat : ℚ) (draw : ℕ)
    (hrain : 0 ≤ rain) :
    0 ≤ (predict has_model rain lat draw).ai_score ∧
    (predict has_model rain lat draw).ai_score ≤ 100 := by
  have hslope : 0 ≤ (get_isro_static_data lat draw).1 := isro_slope_nonneg lat draw
  have hr2 : 0 ≤ rain * (1/2 : ℚ) := mul_nonneg hrain (by norm_num)
  cases has_model with
  | true =>
    have h2 : max 0 (100 - rain * (1/2) - (get_isro_static_data lat draw).1 * (4/5)) ≤ (100:ℚ) :=
      max_le (by norm_num)
        (by linarith [mul_nonneg hslope (by norm_num : (0:ℚ) ≤ 4/5)])
    refine ⟨?_, ?_⟩
    · simp [predict]
    · simpa [predict] using h2
  | false =>
    have harg : (100 - (rain * (1/2) + if (get_isro_static_data lat draw).1 > 30
        then (get_isro_static_data lat draw).1 * (1/2) else 0)) ≤ (100:ℚ) := by
      split_ifs with h30
      · linarith [mul_nonneg hslope (by norm_num : (0:ℚ) ≤ 1/2)]
      · linarith
    have h2 : max 0 ((pyTrunc (100 - (rain * (1/2) + if (get_isro_static_data lat draw).1 > 30
        then (get_isro_static_data lat draw).1 * (1/2) else 0)) : ℤ) : ℚ) ≤ 100 :=
      max_le (by norm_num) (pyTrunc_le_of_le _ _ harg (by norm_num))
    refine ⟨?_, ?_⟩
    · simp [predict]
    · simpa [predict] using h2

/-- The terrain sub-score lies in [0, 100]. -/
theorem terrain_score_of_mem (s : ℚ) :
    0 ≤ terrain_score_of s ∧ terrain_score_of s ≤ 100 := by
  unfold terrain_score_of
  split_ifs <;> norm_num

/-- The weather sub-score lies in [0, 100] for nonnegative rainfall. -/
theorem weather_score_of_mem (r : ℚ) (h : 0 ≤ r) :
    0 ≤ weather_score_of r ∧ weather_score_of r ≤ 100 := by
  unfold weather_score_of
  constructor
  · exact le_min (by linarith) (by norm_num)
  · exact min_le_right _ _

/-- The crowd sub-score lies in [0, 100]. -/
theorem crowd_score_of_mem (s : String) :
    0 ≤ crowd_score_of s ∧ crowd_score_of s ≤ 100 := by
  unfold crowd_score_of
  split_ifs <;> norm_num

/-- The IoT sub-score lies in [0, 100]. -/
theorem iot_score_of_mem (s : String) :
    0 ≤ iot_score_of s ∧ iot_score_of s ≤ 100 := by
  unfold iot_score_of
  split_ifs <;> norm_num


/-- C1: fusion precedence of `analyze_route`: an active drill forces a
CRITICAL verdict naming the drill scenario; otherwise any sensor reading
with CRITICAL status forces a CRITICAL verdict from the sensor grid;
otherwise crowd intel at HIGH or CRITICAL sets the verdict to that level
from the citizen network; only otherwise is the verdict the band of the
weighted composite. -/
theorem fusion_precedence (has_model : Bool) (rain start_lat : ℚ) (draw : ℕ)
    (readings : List Reading) (crowd : Option CrowdIntel) (sim : SimState) :
    (sim.active = true →
      (analyze_route has_model rain start_lat draw readings crowd sim).route_risk = "CRITICAL" ∧
      (analyze_route has_model rain start_lat draw readings crowd sim).reason
        = "🚨 DRILL ACTIVE: " ++ pyShowOptStr sim.scenario ++ " SCENARIO" ∧
      (analyze_route has_model rain start_lat draw readings crowd sim).source
        = "National Command Authority (DRILL)") ∧
    (sim.active = false → (∃ r ∈ readings, r.status = "CRITICAL") →
      (analyze_route has_model rain start_lat draw readings crowd sim).route_risk = "CRITICAL" ∧
      (analyze_route has_model rain start_lat draw readings crowd sim).source
        = "IoT Sensor Grid") ∧
    (sim.active = false → check_critical_breach readings = none →
      (crowdRiskOf crowd = "CRITICAL" ∨ crowdRiskOf crowd = "HIGH") →
      (analyze_route has_model rain start_lat draw readings crowd sim).route_risk
        = crowdRiskOf crowd ∧
      (analyze_route has_model rain start_lat draw readings crowd sim).source
        = "Citizen Sentinel Network") ∧
    (sim.active = false → check_critical_breach readings = none →
      ¬ (crowdRiskOf crowd = "CRITICAL" ∨ crowdRiskOf crowd = "HIGH") →
      (analyze_route has_model rain start_lat draw readings crowd sim).route_risk
        = specBand (composite_score (predict has_model rain start_lat draw).ai_score
            (terrain_score_of (predict has_model rain start_lat draw).slope_angle)
            (weather_score_of rain) (crowd_score_of (crowdRiskOf crowd))
            (iot_score_of (iot_risk_of readings)))) := by
  refine ⟨?_, ?_, ?_, ?_⟩
  · intro h
    refine ⟨?_, ?_, ?_⟩ <;> simp [analyze_route, h]
  · intro h hex
    have hsome : (check_critical_breach readings).isSome := breach_isSome_of_mem readings hex
    have hr : iot_risk_of readings = "CRITICAL" := by simp [iot_risk_of, hsome]
    refine ⟨?_, ?_⟩ <;> simp [analyze_route, h, hr]
  · intro h hnone hcr
    have hr : iot_risk_of readings = "SAFE" := by simp [iot_risk_of, hnone]
    refine ⟨?_, ?_⟩ <;> simp [analyze_route, h, hr, hcr]
  · intro h hnone hncr
    have hr : iot_risk_of readings = "SAFE" := by simp [iot_risk_of, hnone]
    simp only [analyze_route, h, hr, hncr]
    simp only [specBand]
    split_ifs <;> simp_all


/-- Witness for C1: the four precedence branches realized at concrete
inputs — a drill-active evaluation, a CRITICAL river-gauge reading, HIGH
crowd intel, and a no-override composite evaluation. -/
theorem fusion_precedence_witness :
    (analyze_route false 50 27 0 [] (some { risk := "HIGH", source := "Citizen Report" })
        { active := true, scenario := some "FLASH_FLOOD", target_lat := 0, target_lng := 0 }).route_risk
      = "CRITICAL" ∧
    (analyze_route false 50 27 0
        [{ sensor_type := "RIVER_GAUGE", location := "Brahmaputra Bank", value := 15,
           value_repr := "15.0", unit := "m", status := "CRITICAL", lat := 26.18, lng := 91.75 }]
        none { active := false, scenario := none, target_lat := 0, target_lng := 0 }).route_risk
      = "CRITICAL" ∧
    (analyze_route false 50 27 0 [] (some { risk := "HIGH", source := "Citizen Report" })
        { active := false, scenario := none, target_lat := 0, target_lng := 0 }).route_risk
      = "HIGH" ∧
    (analyze_route false 20 27 30 [] none
        { active := false, scenario := none, target_lat := 0, target_lng := 0 }).route_risk
      = specBand (composite_score (predict false 20 27 30).ai_score
          (terrain_score_of (predict false 20 27 30).slope_angle)
          (weather_score_of 20) (crowd_score_of (crowdRiskOf none))
          (iot_score_of (iot_risk_of []))) := by
  refine ⟨?_, ?_, ?_, ?_⟩
  · exact ((fusion_precedence false 50 27 0 []
      (some { risk := "HIGH", source := "Citizen Report" })
      { active := true, scenario := some "FLASH_FLOOD", target_lat := 0, target_lng := 0 }).1
      rfl).1
  · exact ((fusion_precedence false 50 27 0
      [{ sensor_type := "RIVER_GAUGE", location := "Brahmaputra Bank", value := 15,
         value_repr := "15.0", unit := "m", status := "CRITICAL", lat := 26.18, lng := 91.75 }]
      none { active := false, scenario := none, target_lat := 0, target_lng := 0 }).2.1
      rfl ⟨_, List.mem_singleton.mpr rfl, rfl⟩).1
  · have h := ((fusion_precedence false 50 27 0 []
      (some { risk := "HIGH", source := "Citizen Report" })
      { active := false, scenario := none, target_lat := 0, target_lng := 0 }).2.2.1
      rfl rfl (by simp [crowdRiskOf])).1
    simpa [crowdRiskOf] using h
  · exact (fusion_precedence false 20 27 30 [] none
      { active := false, scenario := none, target_lat := 0, target_lng := 0 }).2.2.2
      rfl rfl (by simp [crowdRiskOf])

/-- C5: when no override fires and rainfall is nonnegative, the verdict is
the band of the weighted composite of the five reported sub-scores, each of
which lies in [0, 100]. -/
theorem composite_fallback (has_model : Bool) (rain start_lat : ℚ) (draw : ℕ)
    (readings : List Reading) (crowd : Option CrowdIntel) (sim : SimState)
    (hdrill : sim.active = false)
    (hiot : check_critical_breach readings = none)
    (hcrowd : ¬ (crowdRiskOf crowd = "CRITICAL" ∨ crowdRiskOf crowd = "HIGH"))
    (hrain : 0 ≤ rain) :
    compositeFallbackSpec (analyze_route has_model rain start_lat draw readings crowd sim) := by
  have hr : iot_risk_of readings = "SAFE" := by simp [iot_risk_of, hiot]
  have hl := predict_ai_score_mem has_model rain start_lat draw hrain
  have ht := terrain_score_of_mem (predict has_model rain start_lat draw).slope_angle
  have hw := weather_score_of_mem rain hrain
  have hc := crowd_score_of_mem (crowdRiskOf crowd)
  have hi := iot_score_of_mem (iot_risk_of readings)
  refine ⟨?_, ?_, ?_, ?_, ?_, ?_⟩
  · simp only [analyze_route, hdrill, hr, hcrowd]
    simp only [specBand]
    split_ifs <;> simp_all
  · refine ⟨?_, ?_⟩ <;> simp [analyze_route, hl.1, hl.2]
  · refine ⟨?_, ?_⟩ <;> simp [analyze_route, ht.1, ht.2]
  · refine ⟨?_, ?_⟩ <;> simp [analyze_route, hw.1, hw.2]
  · refine ⟨?_, ?_⟩ <;> simp [analyze_route, hc.1, hc.2]
  · refine ⟨?_, ?_⟩
    · simpa [analyze_route, hr] using hi.1
    · simpa [analyze_route, hr] using hi.2


/-- Witness for C5: the no-override hypotheses realized at a concrete
evaluation with 20mm rainfall in hill terrain. -/
theorem composite_fallback_witness :
    compositeFallbackSpec (analyze_route false 20 27 30 [] none
      { active := false, scenario := none, target_lat := 0, target_lng := 0 }) :=
  composite_fallback false 20 27 30 [] none
    { active := false, scenario := none, target_lat := 0, target_lng := 0 }
    rfl rfl (by simp [crowdRiskOf]) (by norm_num)

/-- C6 (amended): the SOP table of `create_proposal` — CRITICAL maps to
MASS_EVACUATION_ALERT at IMMEDIATE urgency, HIGH to DEPLOY_NDRF_SCOUT at
HIGH, MODERATE to ISSUE_CITIZEN_ADVISORY at MEDIUM, SAFE to MONITOR_ONLY at
LOW; the proposal copies the reason, source and score of the verdict,
targets the evaluated position with the fixed 5km radius, and has status
PENDING_APPROVAL. -/
theorem sop_table (sc : ℚ) (rsn src : String) (lat lng : ℚ) (pid : String) (ts : ℚ) :
    create_proposal
        { risk := some "CRITICAL", score := some sc, reason := some rsn,
          source := some src } lat lng pid ts
      = Except.ok
        { id := pid, timestamp := ts, type := "MASS_EVACUATION_ALERT",
          target_zone := { lat := lat, lng := lng, radius := "5km" }, reason := rsn,
          ai_confidence := sc, source_intel := src, status := "PENDING_APPROVAL",
          urgency := "IMMEDIATE" } ∧
    create_proposal
        { risk := some "HIGH", score := some sc, reason := some rsn,
          source := some src } lat lng pid ts
      = Except.ok
        { id := pid, timestamp := ts, type := "DEPLOY_NDRF_SCOUT",
          target_zone := { lat := lat, lng := lng, radius := "5km" }, reason := rsn,
          ai_confidence := sc, source_intel := src, status := "PENDING_APPROVAL",
          urgency := "HIGH" } ∧
    create_proposal
        { risk := some "MODERATE", score := some sc, reason := some rsn,
          source := some src } lat lng pid ts
      = Except.ok
        { id := pid, timestamp := ts, type := "ISSUE_CITIZEN_ADVISORY",
          target_zone := { lat := lat, lng := lng, radius := "5km" }, reason := rsn,
          ai_confidence := sc, source_intel := src, status := "PENDING_APPROVAL",
          urgency := "MEDIUM" } ∧
    create_proposal
        { risk := some "SAFE", score := some sc, reason := some rsn,
          source := some src } lat lng pid ts
      = Except.ok
        { id := pid, timestamp := ts, type := "MONITOR_ONLY",
          target_zone := { lat := lat, lng := lng, radius := "5km" }, reason := rsn,
          ai_confidence := sc, source_intel := src, status := "PENDING_APPROVAL",
          urgency := "LOW" } := by
  refine ⟨?_, ?_, ?_, ?_⟩ <;> simp +decide [create_proposal]

/-- Counterexample for C6 as stated: on a HIGH verdict `create_proposal`
emits the action DEPLOY_NDRF_SCOUT, not DEPLOY_SCOUT. -/
theorem sop_table_deploy_scout_cex :
    (create_proposal
        { risk := some "HIGH", score := some 30,
          reason := some "UNSTABLE SLOPE + RAIN (ISRO Threshold)",
          source := some "ISRO Cartosat DEM" } 26.14 91.73 "CMD-TEST" 0).map Proposal.type
      = Except.ok "DEPLOY_NDRF_SCOUT" ∧
    (create_proposal
        { risk := some "HIGH", score := some 30,
          reason := some "UNSTABLE SLOPE + RAIN (ISRO Threshold)",
          source := some "ISRO Cartosat DEM" } 26.14 91.73 "CMD-TEST" 0).map Proposal.type
      ≠ Except.ok "DEPLOY_SCOUT" := by
  refine ⟨?_, ?_⟩ <;> simp +decide [create_proposal, Except.map]

/-- C7 (amended): `record_authority_decision` rejects a payload/path
mismatch with 400; fails with 404 "Route not found" on an absent route id,
leaving the state unchanged; and on a present route id appends exactly one
decision row and one audit row without removing anything, so a second call
on the same id succeeds again. -/
theorem record_decision_semantics (route_id : String) (payload : DecisionRequest)
    (db : DbState) :
    (payload.route_id ≠ route_id →
      record_authority_decision route_id payload db
        = (db, Except.error (400, "route_id mismatch"))) ∧
    (payload.route_id = route_id → route_id ∉ db.routes →
      record_authority_decision route_id payload db
        = (db, Except.error (404, "Route not found"))) ∧
    (payload.route_id = route_id → route_id ∈ db.routes →
      (record_authority_decision route_id payload db).2 = Except.ok "RECORDED" ∧
      (record_authority_decision route_id payload db).1.routes = db.routes ∧
      (record_authority_decision route_id payload db).1.decisions
        = db.decisions ++
            [{ route_id := route_id, actor_role := payload.actor_role,
               decision := payload.decision }] ∧
      (record_authority_decision route_id payload db).1.audit
        = db.audit ++
            [{ actor := payload.actor, action := "AUTHORITY_DECISION",
               route_id := route_id, actor_role := payload.actor_role,
               decision := payload.decision, context := payload.context }] ∧
      (record_authority_decision route_id payload
        (record_authority_decision route_id payload db).1).2 = Except.ok "RECORDED") := by
  refine ⟨?_, ?_, ?_⟩
  · intro h
    simp [record_authority_decision, h]
  · intro h hmem
    simp [record_authority_decision, h, hmem]
  · intro h hmem
    refine ⟨?_, ?_, ?_, ?_, ?_⟩ <;> simp [record_authority_decision, h, hmem]

/-- Witness for C7 (amended): deciding a present route id records the
decision. -/
theorem record_decision_semantics_witness :
    (record_authority_decision "R1"
      { route_id := "R1", actor_role := "NDRF", decision := "APPROVED",
        actor := "cdr", context := "ok" }
      { routes := ["R1"], decisions := [], audit := [] }).2 = Except.ok "RECORDED" :=
  ((record_decision_semantics "R1"
      { route_id := "R1", actor_role := "NDRF", decision := "APPROVED",
        actor := "cdr", context := "ok" }
      { routes := ["R1"], decisions := [], audit := [] }).2.2 rfl (by simp)).1

/-- Counterexample for C7 as stated: a second decision call on the same
route id succeeds with RECORDED again instead of failing with a
not-found error. -/
theorem decide_rerun_succeeds_cex :
    (record_authority_decision "R1"
      { route_id := "R1", actor_role := "NDRF", decision := "APPROVED",
        actor := "cdr", context := "ok" }
      { routes := ["R1"], decisions := [], audit := [] }).2 = Except.ok "RECORDED" ∧
    (record_authority_decision "R1"
      { route_id := "R1", actor_role := "NDRF", decision := "REJECTED",
        actor := "cdr", context := "again" }
      (record_authority_decision "R1"
        { route_id := "R1", actor_role := "NDRF", decision := "APPROVED",
          actor := "cdr", context := "ok" }
        { routes := ["R1"], decisions := [], audit := [] }).1).2
      = Except.ok "RECORDED" := by
  refine ⟨?_, ?_⟩ <;> simp +decide [record_authority_decision]

/-- C8: `start_simulation` always raises `KeyError: risk` —
`SimulationManager.start_scenario` returns a status/mode dictionary without
the risk keys `create_proposal` reads — so no proposal is ever inserted into
the pending queue; the drill-state flip and the DRILL_INITIATED audit entry,
performed before the failing call, survive. -/
theorem start_simulation_keyerror (scenario pid : String) (ts : ℚ) (st : SystemState) :
    (start_simulation scenario pid ts st).2 = Except.error "KeyError: risk" ∧
    (start_simulation scenario pid ts st).1.pending = st.pending ∧
    (start_simulation scenario pid ts st).1.sim
      = start_scenario_state scenario (2614/100) (9173/100) ∧
    (start_simulation scenario pid ts st).1.audit
      = st.audit ++
          [{ actor := "ADMIN", action := "DRILL_INITIATED",
             details := "Scenario: " ++ scenario, severity := "WARN" }] := by
  refine ⟨?_, ?_, ?_, ?_⟩ <;>
    simp [start_simulation, create_proposal, start_scenario_data]

/-- C9 (amended): the evaluation is a pure function of its inputs, the
external signal state and the sampled randomness — two calls that observe
the same generator value return identical results. -/
theorem evaluate_deterministic (has_model : Bool) (rain start_lat : ℚ) (s : ℕ → ℕ)
    (readings : List Reading) (crowd : Option CrowdIntel) (sim : SimState)
    (h : s 0 = s 1) :
    (analyze_route_twice has_model rain start_lat s readings crowd sim).1
      = (analyze_route_twice has_model rain start_lat s readings crowd sim).2 := by
  simp [analyze_route_twice, h]

/-- Witness for C9 (amended): a constant generator stream yields equal
consecutive results. -/
theorem evaluate_deterministic_witness :
    (analyze_route_twice false 20 27 (fun _ => 7) [] none
      { active := false, scenario := none, target_lat := 0, target_lng := 0 }).1
      = (analyze_route_twice false 20 27 (fun _ => 7) [] none
      { active := false, scenario := none, target_lat := 0, target_lng := 0 }).2 :=
  evaluate_deterministic false 20 27 (fun _ => 7) [] none
    { active := false, scenario := none, target_lat := 0, target_lng := 0 } rfl

/-- Counterexample for C9 as stated: with identical inputs and identical
external signal state, two consecutive calls differ — the predictor draws a
fresh random slope on each call (first draw 30 gives slope 60 and verdict
MODERATE, next draw 0 gives slope 30 and verdict HIGH). -/
theorem evaluate_not_idempotent_cex :
    (analyze_route_twice false 20 27 (fun n => if n = 0 then 30 else 0) [] none
      { active := false, scenario := none, target_lat := 0, target_lng := 0 }).1.route_risk
      ≠ (analyze_route_twice false 20 27 (fun n => if n = 0 then 30 else 0) [] none
      { active := false, scenario := none, target_lat := 0, target_lng := 0 }).2.route_risk := by
  have h1 : (analyze_route_twice false 20 27 (fun n => if n = 0 then 30 else 0) [] none
      { active := false, scenario := none, target_lat := 0, target_lng := 0 }).1.route_risk
      = "MODERATE" := by
    norm_num +decide [analyze_route_twice, analyze_route, predict, get_isro_static_data,
      terrain_score_of, weather_score_of, crowd_score_of, iot_score_of, iot_risk_of,
      check_critical_breach, crowdRiskOf, composite_score, pyTrunc, min_def, max_def]
  have h2 : (analyze_route_twice false 20 27 (fun n => if n = 0 then 30 else 0) [] none
      { active := false, scenario := none, target_lat := 0, target_lng := 0 }).2.route_risk
      = "HIGH" := by
    norm_num +decide [analyze_route_twice, analyze_route, predict, get_isro_static_data,
      terrain_score_of, weather_score_of, crowd_score_of, iot_score_of, iot_risk_of,
      check_critical_breach, crowdRiskOf, composite_score, pyTrunc, min_def, max_def]
  rw [h1, h2]
  decide

/-- C10: stopping a simulation empties the whole pending queue, deactivates
the drill, clears the scenario, and appends exactly one DRILL_STOPPED audit
entry — no per-proposal decision or audit entry is written for the removed
proposals. -/
theorem stop_simulation_clears (st : SystemState) :
    (stop_simulation st).1.pending = [] ∧
    (stop_simulation st).1.sim.active = false ∧
    (stop_simulation st).1.sim.scenario = none ∧
    (stop_simulation st).1.audit
      = st.audit ++
          [{ actor := "ADMIN", action := "DRILL_STOPPED",
             details := "System Reset to Normal", severity := "INFO" }] ∧
    (stop_simulation st).2 = "STOPPED" := by
  refine ⟨?_, ?_, ?_, ?_, ?_⟩ <;> simp [stop_simulation]

end Drishti
